import Mathlib

/-
Shallow embedding of src/railway_host.py, the single source file of the
repository: an MCP server exposing one tool, query_employee_data, that
validates a SQL string (must start with SELECT after trim and upper-casing,
must not contain any of seven forbidden keywords as substrings) and then
executes it against a PostgreSQL database, returning a JSON envelope.

Strings are modelled as Lean strings over their character lists.  The
Python string operations used by the source (str.strip, str.upper,
str.startswith, the in operator for substring search) are re-implemented
below, character by character, for the ASCII texts the tool handles.
The database driver (psycopg2) is modelled as an oracle with an abstract
state: connecting may fail or yield a new state, running a query may fail
or yield a list of rows together with a new state.  JSON objects are
modelled as structures whose Option fields record the presence or absence
of the corresponding key.
-/

/-- Python str.strip removes leading and trailing whitespace.  ASCII
whitespace as recognised by Python: space, tab, newline, carriage return,
vertical tab, form feed. -/
def pyIsSpace (c : Char) : Bool :=
  c == ' ' || c == '\t' || c == '\n' || c == '\r' || c == '\x0b' || c == '\x0c'

/-- Drop whitespace from both ends of a character list (Python str.strip). -/
def stripChars (cs : List Char) : List Char :=
  ((cs.dropWhile pyIsSpace).reverse.dropWhile pyIsSpace).reverse

/-- Model of Python str.strip for the tool input text (line 146 of the
source: sql = arguments["sql"].strip()). -/
def pyStrip (s : String) : String :=
  String.mk (stripChars s.data)

/-- Model of Python str.upper on the ASCII SQL text (line 150 of the
source: sql_upper = sql.upper()); Char.toUpper maps a-z to A-Z and leaves
every other character unchanged, as Python does on ASCII. -/
def pyUpper (s : String) : String :=
  String.mk (s.data.map Char.toUpper)

/-- Does the first list occur as a prefix of the second (Python
str.startswith)? -/
def startsWithChars : List Char → List Char → Bool
  | [], _ => true
  | _ :: _, [] => false
  | p :: ps, c :: cs => p == c && startsWithChars ps cs

/-- Model of Python str.startswith (line 153 of the source). -/
def pyStartsWith (p s : String) : Bool :=
  startsWithChars p.data s.data

/-- Does the first list occur as a contiguous sublist of the second
(Python operator in on strings)? -/
def containsChars (needle : List Char) : List Char → Bool
  | [] => needle.isEmpty
  | c :: cs => startsWithChars needle (c :: cs) || containsChars needle cs

/-- Model of the Python substring test keyword in sql_upper (line 165). -/
def pyContains (needle s : String) : Bool :=
  containsChars needle.data s.data

/-- The forbidden keyword list of line 164 of the source. -/
def forbidden : List String :=
  ["INSERT", "UPDATE", "DELETE", "DROP", "CREATE", "ALTER", "TRUNCATE"]

/-- Line 165 of the source: any(keyword in sql_upper for keyword in forbidden). -/
def containsForbidden (sqlUpper : String) : Bool :=
  forbidden.any (fun kw => pyContains kw sqlUpper)

/-- One result row: the RealDictCursor returns each row as an ordered
mapping from column name to value; values are already rendered in their
serialized (textual) form, matching json.dumps with default=str. -/
structure Row where
  fields : List (String × String)
deriving DecidableEq, Repr

/-- An error raised by the database driver, carrying its message text
(what Python str(e) yields). -/
structure DBError where
  msg : String
deriving DecidableEq, Repr

/-- The database driver as an oracle over an abstract state type.
connect models psycopg2.connect: it either fails or yields the state in
which the query will run; run models cursor.execute plus fetchall: it
either fails or yields the full list of result rows, and in both cases
yields the successor database state (an external writer may change it). -/
structure DB (σ : Type) where
  connect : σ → Except DBError σ
  run : σ → String → Except DBError (List Row) × σ

/-- Connection lifecycle events, used to state the resource discipline of
execute_query: eopen is recorded when psycopg2.connect returns
successfully, eclose when conn.close() runs in the finally block. -/
inductive DBEvent where
  | eopen
  | eclose
deriving DecidableEq, Repr

/-- The JSON envelope built by the source.  Each Option field models the
presence (some) or absence (none) of the corresponding key in the JSON
object: success, data, row_count, error, executed_query. -/
structure Envelope where
  success : Option Bool
  data : Option (List Row)
  row_count : Option Nat
  error : Option String
  executed_query : Option String
deriving DecidableEq, Repr

/-- Lines 46-79 of the source.  execute_query opens a connection, runs
the query, fetches all rows, and returns the envelope; every exception is
caught and turned into a failure envelope; the finally block closes the
connection exactly when it was opened (the conn in locals() test).  The
result carries the envelope, the final database state, and the trace of
lifecycle events.  The comprehension dict(row) for row in results is the
identity on our Row model (it re-wraps each ordered mapping unchanged). -/
def execute_query {σ : Type} (db : DB σ) (s : σ) (query : String) :
    Envelope × σ × List DBEvent :=
  match db.connect s with
  | Except.error e =>
      ({ success := some false, data := none, row_count := none,
         error := some e.msg, executed_query := none }, s, [])
  | Except.ok s1 =>
      match db.run s1 query with
      | (Except.ok results, s2) =>
          ({ success := some true, data := some results,
             row_count := some results.length,
             error := none, executed_query := none }, s2,
           [DBEvent.eopen, DBEvent.eclose])
      | (Except.error e, s2) =>
          ({ success := some false, data := none, row_count := none,
             error := some e.msg, executed_query := none }, s2,
           [DBEvent.eopen, DBEvent.eclose])

/-- The rejection envelope of lines 155-161 of the source: the JSON
object with success false and the reason string for a non-SELECT query.
No executed_query key is written. -/
def onlySelectRejection : Envelope :=
  { success := some false, data := none, row_count := none,
    error := some "Only SELECT queries are allowed", executed_query := none }

/-- The rejection envelope of lines 167-173 of the source: the JSON
object with success false and the reason string for a query containing a
forbidden keyword.  No executed_query key is written. -/
def forbiddenRejection : Envelope :=
  { success := some false, data := none, row_count := none,
    error := some "Query contains forbidden operations", executed_query := none }

/-- The bare error object of line 192 of the source, returned for an
unrecognized tool name; it has no success key at all. -/
def unknownToolEnvelope (name : String) : Envelope :=
  { success := none, data := none, row_count := none,
    error := some ("Unknown tool: " ++ name), executed_query := none }

/-- What the call_tool handler hands back to the framework: either a
structured envelope (serialized as TextContent), or an uncaught Python
exception escaping the handler; keyError k models a KeyError raised by
the subscript arguments[k]. -/
inductive CallResult where
  | ok (env : Envelope)
  | keyError (key : String)
deriving DecidableEq, Repr

/-- Lines 138-193 of the source.  The tool arguments mapping is modelled
as a partial map from key to string value (the inputSchema declares sql
as a string).  For the recognized tool name the handler strips the input,
upper-cases it, rejects non-SELECT text, rejects text containing a
forbidden keyword, and otherwise executes the stripped query and stamps
executed_query onto the resulting envelope (line 180); for any other tool
name it returns the bare error object of line 192.  The subscript
arguments["sql"] of line 146 raises KeyError when the key is absent. -/
def call_tool {σ : Type} (db : DB σ) (s : σ) (name : String)
    (arguments : String → Option String) : CallResult × σ × List DBEvent :=
  if name = "query_employee_data" then
    match arguments "sql" with
    | none => (CallResult.keyError "sql", s, [])
    | some rawSql =>
      if pyStartsWith "SELECT" (pyUpper (pyStrip rawSql)) = false then
        (CallResult.ok onlySelectRejection, s, [])
      else if containsForbidden (pyUpper (pyStrip rawSql)) = true then
        (CallResult.ok forbiddenRejection, s, [])
      else
        let r := execute_query db s (pyStrip rawSql)
        (CallResult.ok { r.1 with executed_query := some (pyStrip rawSql) },
         r.2.1, r.2.2)
  else
    (CallResult.ok (unknownToolEnvelope name), s, [])

/-- The envelope invariant of the spec: success true forces data and
row_count present and error absent; success false forces error present
and data and row_count absent. -/
def envelopeInvariant (e : Envelope) : Prop :=
  (e.success = some true → e.data ≠ none ∧ e.row_count ≠ none ∧ e.error = none) ∧
  (e.success = some false → e.error ≠ none ∧ e.data = none ∧ e.row_count = none)

/-- Lift the envelope invariant to a call result: an escaping exception
produces no envelope, so there is nothing to check. -/
def resultInvariant : CallResult → Prop
  | CallResult.ok e => envelopeInvariant e
  | CallResult.keyError _ => True

/-- A database whose connection always succeeds and whose every query
returns no rows; state is trivial. -/
def emptyRowsDB : DB Unit where
  connect := fun _ => Except.ok ()
  run := fun _ _ => (Except.ok [], ())

/-- A sample result row over the employee schema. -/
def sampleRow : Row :=
  ⟨[("id", "1"), ("first_name", "Ada"), ("department", "Engineering")]⟩

/-- A database whose connection always succeeds and whose every query
returns the single sample row; state is trivial. -/
def sampleDB : DB Unit where
  connect := fun _ => Except.ok ()
  run := fun _ _ => (Except.ok [sampleRow], ())

/-- A database whose connection attempt always fails. -/
def refusedDB : DB Unit where
  connect := fun _ => Except.error ⟨"connection refused"⟩
  run := fun _ _ => (Except.ok [], ())

/-- A database that connects but fails during query execution. -/
def badQueryDB : DB Unit where
  connect := fun _ => Except.ok ()
  run := fun _ _ => (Except.error ⟨"syntax error at or near FROM"⟩, ())

/-- Concrete arguments mapping carrying a DROP statement. -/
def dropArgs : String → Option String :=
  fun k => if k = "sql" then some "DROP TABLE employee" else none

/-- Concrete arguments mapping carrying an accepted SELECT with
surrounding whitespace. -/
def selArgs : String → Option String :=
  fun k => if k = "sql" then some "  SELECT * FROM public.employee LIMIT 5  " else none

/-- Concrete arguments mapping carrying a stacked statement. -/
def stackedArgs : String → Option String :=
  fun k => if k = "sql" then some "SELECT * FROM employee; DROP TABLE employee;" else none

/-- Concrete arguments mapping carrying the empty string. -/
def emptyArgs : String → Option String :=
  fun k => if k = "sql" then some "" else none

/-- Helper: the envelope invariant only reads success, data, row_count
and error, so stamping executed_query preserves it. -/
theorem envelopeInvariant_stamp {e : Envelope} (h : envelopeInvariant e)
    (q : Option String) : envelopeInvariant { e with executed_query := q } := h

/-- Helper: every envelope produced by execute_query satisfies the
envelope invariant, whatever the database does. -/
theorem execute_query_inv {σ : Type} (db : DB σ) (s : σ) (q : String) :
    envelopeInvariant (execute_query db s q).1 := by
  unfold execute_query
  cases h : db.connect s with
  | error e => simp [envelopeInvariant]
  | ok s1 =>
    rcases h2 : db.run s1 q with ⟨e | rows, s2⟩
    · simp [h2, envelopeInvariant]
    · simp [h2, envelopeInvariant]

/-- Claim C3: every input whose trimmed, upper-cased text does not start
with SELECT (the empty string included) is rejected by the handler with
the exact reason string of line 159, and the database oracle is never
consulted: the state is returned unchanged and the connection event trace
is empty. -/
theorem C3_non_select_rejected {σ : Type} (db : DB σ) (s : σ)
    (arguments : String → Option String) (raw : String)
    (ha : arguments "sql" = some raw)
    (h1 : pyStartsWith "SELECT" (pyUpper (pyStrip raw)) = false) :
    call_tool db s "query_employee_data" arguments =
      (CallResult.ok onlySelectRejection, s, []) := by
  simp [call_tool, ha, h1]

/-- Witness for C3 at the empty string input. -/
theorem C3_witness_empty_string :
    call_tool sampleDB () "query_employee_data" emptyArgs =
      (CallResult.ok onlySelectRejection, (), []) :=
  C3_non_select_rejected sampleDB () emptyArgs "" (by decide) (by decide)

/-- Claim C4: every input that starts with SELECT after trim and
upper-casing but contains one of the seven forbidden keywords as a
substring anywhere is rejected with the exact reason string of line 171,
and the database oracle is never consulted. -/
theorem C4_forbidden_substring_rejected {σ : Type} (db : DB σ) (s : σ)
    (arguments : String → Option String) (raw : String)
    (ha : arguments "sql" = some raw)
    (h1 : pyStartsWith "SELECT" (pyUpper (pyStrip raw)) = true)
    (h2 : containsForbidden (pyUpper (pyStrip raw)) = true) :
    call_tool db s "query_employee_data" arguments =
      (CallResult.ok forbiddenRejection, s, []) := by
  simp [call_tool, ha, h1, h2]

/-- Witness for C4 at the stacked statement of the spec scenario. -/
theorem C4_witness_stacked_statement :
    call_tool sampleDB () "query_employee_data" stackedArgs =
      (CallResult.ok forbiddenRejection, (), []) :=
  C4_forbidden_substring_rejected sampleDB () stackedArgs
    "SELECT * FROM employee; DROP TABLE employee;" (by decide) (by decide) (by decide)

/-- Claim C5: rule 1 is checked before rule 2: an input that fails the
SELECT prefix test is rejected with the reason of line 159 even when its
text also contains forbidden keywords. -/
theorem C5_rule1_before_rule2 {σ : Type} (db : DB σ) (s : σ)
    (arguments : String → Option String) (raw : String)
    (ha : arguments "sql" = some raw)
    (h1 : pyStartsWith "SELECT" (pyUpper (pyStrip raw)) = false)
    (_h2 : containsForbidden (pyUpper (pyStrip raw)) = true) :
    call_tool db s "query_employee_data" arguments =
      (CallResult.ok onlySelectRejection, s, []) := by
  simp [call_tool, ha, h1]

/-- Witness for C5 at the DROP TABLE employee scenario of the spec. -/
theorem C5_witness_drop_table :
    call_tool sampleDB () "query_employee_data" dropArgs =
      (CallResult.ok onlySelectRejection, (), []) :=
  C5_rule1_before_rule2 sampleDB () dropArgs "DROP TABLE employee"
    (by decide) (by decide) (by decide)

/-- Counterexample to claim C1: on the validation-rejected input DROP
TABLE employee the handler returns the rejection envelope of lines
155-161, whose executed_query field is absent (none); the claim asserts
executed_query is present in every response envelope, including
validation-rejected ones. -/
theorem C1_counterexample_rejection_omits_executed_query :
    (call_tool sampleDB () "query_employee_data" dropArgs).1 =
      CallResult.ok { success := some false, data := none, row_count := none,
                      error := some "Only SELECT queries are allowed",
                      executed_query := none } := by
  decide

/-- Claim C1 as amended: executed_query is stamped (line 180) onto the
envelope of every query that passes validation — on the success path and
on the execution-failure path alike — and it equals the trimmed original
input, never a rewritten version; the validation-rejection envelopes omit
the field. -/
theorem C1_amended_executed_query_stamped {σ : Type} (db : DB σ) (s : σ)
    (arguments : String → Option String) (raw : String)
    (ha : arguments "sql" = some raw)
    (h1 : pyStartsWith "SELECT" (pyUpper (pyStrip raw)) = true)
    (h2 : containsForbidden (pyUpper (pyStrip raw)) = false) :
    (call_tool db s "query_employee_data" arguments).1 =
      CallResult.ok { (execute_query db s (pyStrip raw)).1 with
                      executed_query := some (pyStrip raw) } := by
  simp [call_tool, ha, h1, h2]

/-- Witness for the amended C1: a SELECT with surrounding whitespace is
executed and the response carries executed_query equal to the trimmed
original text. -/
theorem C1_amended_witness :
    (call_tool sampleDB () "query_employee_data" selArgs).1 =
      CallResult.ok { success := some true, data := some [sampleRow],
                      row_count := some 1, error := none,
                      executed_query := some "SELECT * FROM public.employee LIMIT 5" } :=
  (C1_amended_executed_query_stamped sampleDB () selArgs
    "  SELECT * FROM public.employee LIMIT 5  "
    (by decide) (by decide) (by decide)).trans (by decide)

/-- Counterexample to claim C2: when the arguments mapping lacks the sql
key, line 146 of the source evaluates arguments["sql"], which raises a
KeyError that escapes call_tool; no envelope is returned. -/
theorem C2_counterexample_missing_sql_raises :
    (call_tool sampleDB () "query_employee_data" (fun _ => none)).1 =
      CallResult.keyError "sql" := by
  decide

/-- Claim C2 as amended: whenever the recognized tool is invoked with an
arguments mapping that does supply the sql key (and for every invocation
of an unrecognized tool name), call_tool returns a structured envelope
and no exception escapes; only the missing-sql subscript can raise. -/
theorem C2_amended_no_raise_when_sql_present {σ : Type} (db : DB σ) (s : σ)
    (name : String) (arguments : String → Option String)
    (h : name = "query_employee_data" → (arguments "sql").isSome = true) :
    ∃ env, (call_tool db s name arguments).1 = CallResult.ok env := by
  by_cases hn : name = "query_employee_data"
  · subst hn
    cases harg : arguments "sql" with
    | none =>
      have hs := h rfl
      rw [harg] at hs
      simp at hs
    | some raw =>
      by_cases h1 : pyStartsWith "SELECT" (pyUpper (pyStrip raw)) = false
      · exact ⟨onlySelectRejection, by simp [call_tool, harg, h1]⟩
      · by_cases h2 : containsForbidden (pyUpper (pyStrip raw)) = true
        · exact ⟨forbiddenRejection, by simp [call_tool, harg, h1, h2]⟩
        · exact ⟨{ (execute_query db s (pyStrip raw)).1 with
                   executed_query := some (pyStrip raw) },
                 by simp [call_tool, harg, h1, h2]⟩
  · exact ⟨unknownToolEnvelope name, by simp [call_tool, hn]⟩

/-- Witness for the amended C2 at a concrete invocation that supplies
the sql key. -/
theorem C2_amended_witness :
    ∃ env, (call_tool sampleDB () "query_employee_data" selArgs).1 =
      CallResult.ok env :=
  C2_amended_no_raise_when_sql_present sampleDB () "query_employee_data"
    selArgs (fun _ => by decide)

/-- Claim C6: every envelope the system produces satisfies the spec
invariant — success true forces data and row_count present and error
absent, success false forces error present and data and row_count absent.
The first conjunct covers every envelope leaving call_tool (for every
tool name, arguments mapping and database behavior; the keyError branch
produces no envelope), the second every envelope built by execute_query
before executed_query is stamped. -/
theorem C6_envelope_invariant {σ : Type} (db : DB σ) (s : σ) (name : String)
    (arguments : String → Option String) (q : String) :
    resultInvariant (call_tool db s name arguments).1 ∧
      envelopeInvariant (execute_query db s q).1 := by
  refine ⟨?_, execute_query_inv db s q⟩
  by_cases hn : name = "query_employee_data"
  · subst hn
    cases harg : arguments "sql" with
    | none => simp [call_tool, harg, resultInvariant]
    | some raw =>
      by_cases h1 : pyStartsWith "SELECT" (pyUpper (pyStrip raw)) = false
      · simp [call_tool, harg, h1, resultInvariant, onlySelectRejection,
          envelopeInvariant]
      · by_cases h2 : containsForbidden (pyUpper (pyStrip raw)) = true
        · simp [call_tool, harg, h1, h2, resultInvariant, forbiddenRejection,
            envelopeInvariant]
        · have hinv := envelopeInvariant_stamp
            (execute_query_inv db s (pyStrip raw)) (some (pyStrip raw))
          simpa [call_tool, harg, h1, h2, resultInvariant] using hinv
  · simp [call_tool, hn, resultInvariant, unknownToolEnvelope, envelopeInvariant]

/-- Claim C7: every database fault is absorbed by execute_query and
reported as the failure envelope carrying the fault message: a connection
failure (first conjunct) and an execution failure after a successful
connection (second conjunct) both yield success false with error set to
the message text of the raised exception, and the error value is not the
empty string whenever the driver message is not; no fault escapes, since
execute_query totally returns an envelope. -/
theorem C7_executor_errors_become_failure_envelopes {σ : Type} (db : DB σ)
    (s s1 s2 : σ) (q : String) (e : DBError) (hmsg : e.msg ≠ "") :
    (db.connect s = Except.error e →
      (execute_query db s q).1 =
        { success := some false, data := none, row_count := none,
          error := some e.msg, executed_query := none } ∧
      (execute_query db s q).1.error ≠ some "") ∧
    (db.connect s = Except.ok s1 → db.run s1 q = (Except.error e, s2) →
      (execute_query db s q).1 =
        { success := some false, data := none, row_count := none,
          error := some e.msg, executed_query := none } ∧
      (execute_query db s q).1.error ≠ some "") := by
  constructor
  · intro hc
    constructor
    · simp [execute_query, hc]
    · simp [execute_query, hc, hmsg]
  · intro hc hr
    constructor
    · simp [execute_query, hc, hr]
    · simp [execute_query, hc, hr, hmsg]

/-- Witness for C7 at a database whose connection attempt is refused. -/
theorem C7_witness_connection_refused :
    (execute_query refusedDB () "SELECT 1").1 =
      { success := some false, data := none, row_count := none,
        error := some "connection refused", executed_query := none } :=
  ((C7_executor_errors_become_failure_envelopes refusedDB () () ()
    "SELECT 1" ⟨"connection refused"⟩ (by decide)).1 rfl).1

/-- Claim C8: the connection-lifecycle trace of execute_query is exactly
open-then-close whenever psycopg2.connect returns successfully — whatever
the query execution then does — and empty when the connection attempt
itself fails, so an opened connection is closed exactly once before the
function returns and a failed open is never followed by a close. -/
theorem C8_connection_close_discipline {σ : Type} (db : DB σ) (s : σ)
    (q : String) :
    (execute_query db s q).2.2 =
      (match db.connect s with
        | Except.error _ => []
        | Except.ok _ => [DBEvent.eopen, DBEvent.eclose]) := by
  unfold execute_query
  cases h : db.connect s with
  | error e => rfl
  | ok s1 =>
    rcases h2 : db.run s1 q with ⟨e | rows, s2⟩
    · simp [h2]
    · simp [h2]

/-- Claim C9: the executor is deterministic given a fixed database:
running the same query a second time from the state the first run left
behind yields identical data and identical row_count, provided the first
run left the database state unchanged (the read-only hypothesis). -/
theorem C9_executor_deterministic {σ : Type} (db : DB σ) (s : σ)
    (q : String) (h : (execute_query db s q).2.1 = s) :
    (execute_query db (execute_query db s q).2.1 q).1.data =
        (execute_query db s q).1.data ∧
      (execute_query db (execute_query db s q).2.1 q).1.row_count =
        (execute_query db s q).1.row_count := by
  rw [h]
  exact ⟨rfl, rfl⟩

/-- Witness for C9 at the sample database. -/
theorem C9_witness_sample_db :
    (execute_query sampleDB (execute_query sampleDB () "SELECT 1").2.1
        "SELECT 1").1.data =
        (execute_query sampleDB () "SELECT 1").1.data ∧
      (execute_query sampleDB (execute_query sampleDB () "SELECT 1").2.1
        "SELECT 1").1.row_count =
        (execute_query sampleDB () "SELECT 1").1.row_count :=
  C9_executor_deterministic sampleDB () "SELECT 1" rfl

/-- Claim C10: when the connection succeeds and the query runs without
fault, the envelope is success true with data exactly the row list the
database returned, in order, and row_count its length; in particular a
zero-row result yields success true, data the empty list and row_count
zero. -/
theorem C10_success_envelope_shape {σ : Type} (db : DB σ) (s s1 s2 : σ)
    (q : String) (rows : List Row)
    (hc : db.connect s = Except.ok s1)
    (hr : db.run s1 q = (Except.ok rows, s2)) :
    (execute_query db s q).1 =
      { success := some true, data := some rows,
        row_count := some rows.length, error := none,
        executed_query := none } := by
  simp [execute_query, hc, hr]

/-- Witness for C10 at a database returning zero rows. -/
theorem C10_witness_zero_rows :
    (execute_query emptyRowsDB () "SELECT 1").1 =
      { success := some true, data := some [], row_count := some 0,
        error := none, executed_query := none } :=
  C10_success_envelope_shape emptyRowsDB () () () "SELECT 1" [] rfl rfl
